import Mathlib

/-!
Verification development for the `engage-voice-client-js` repository
(`src/engage-voice.js`).  The client is shallowly embedded: JavaScript
strings are Lean `String`s (manipulated through their underlying
`List Char`), JavaScript `undefined` is `Option.none`, fallible code
returns `Except`, and the stateful token store is passed explicitly.
External collaborators (the `urijs` URL library, the axios transport and
the RingCentral identity SDK) are modelled only in the behaviour the
client exercises.
-/

namespace EngageVoice

/-- Character lists: the representation of JavaScript strings used by the
URL model, so that parsing functions can be reasoned about by list
induction. -/
abbrev Chars := List Char

/-- Rendering of a possibly-`undefined` JavaScript string inside a template
literal: `undefined` prints as the string `"undefined"`. -/
def jsTemplateStr : Option String → String
  | none => "undefined"
  | some s => s

/-- JavaScript truthiness of a possibly-`undefined` string: `undefined` and
the empty string are falsy, every other string is truthy. -/
def jsTruthy : Option String → Bool
  | none => false
  | some s => s ≠ ""

/-- Models JavaScript `String.prototype.startsWith`. -/
def jsStartsWith (s pre : Chars) : Bool := pre.isPrefixOf s

/-- Splits a URL at the first `"://"`: `splitScheme l = some (sch, rest)`
when `l = sch ++ "://" ++ rest` and `sch` contains no `'/'`; `none` when the
URL has no scheme part.  Models how the `urijs` collaborator decides whether
a URL is absolute. -/
def splitScheme : Chars → Option (Chars × Chars)
  | [] => none
  | c :: rest =>
    if c = ':' ∧ rest.take 2 = ['/', '/'] then some ([], rest.drop 2)
    else if c = '/' then none
    else
      match splitScheme rest with
      | none => none
      | some p => some (c :: p.1, p.2)

/-- Splits the part after `"://"` into the hostname (up to the first `'/'`)
and the path (from that `'/'` on). -/
def splitHost : Chars → Chars × Chars
  | [] => ([], [])
  | c :: rest =>
    if c = '/' then ([], c :: rest)
    else
      let p := splitHost rest
      (c :: p.1, p.2)

/-- Splits a path at every `'/'`, keeping empty pieces, exactly like
JavaScript `path.split('/')`. -/
def splitSlash : Chars → List Chars
  | [] => [[]]
  | c :: rest =>
    if c = '/' then [] :: splitSlash rest
    else
      match splitSlash rest with
      | [] => [[c]]
      | s :: ss => (c :: s) :: ss

/-- A parsed URL in the shape the client uses from `urijs`: scheme,
hostname and path (queries and fragments never reach the URL model in this
client, so they are part of the path here). -/
structure Uri where
  scheme : Chars
  hostname : Chars
  path : Chars
deriving DecidableEq, Repr

/-- Models `URI(string)`: a string with a scheme part is split into scheme,
hostname and path; any other string is a relative reference whose path is
the whole string. -/
def parseURIc (l : Chars) : Uri :=
  match splitScheme l with
  | none => ⟨[], [], l⟩
  | some p => ⟨p.1, (splitHost p.2).1, (splitHost p.2).2⟩

/-- Models `uri.toString()` for the URIs the client builds: a relative
reference prints as its path, an absolute one as
`scheme://hostname/path`. -/
def Uri.toChars (u : Uri) : Chars :=
  if u.scheme = [] ∧ u.hostname = [] then u.path
  else u.scheme ++ ':' :: '/' :: '/' :: (u.hostname ++ u.path)

/-- Models `uri.segment()`: the path split at `'/'`, without the leading
empty piece when the path is absolute. -/
def Uri.segments (u : Uri) : List Chars :=
  let segs := splitSlash u.path
  if u.path.head? = some '/' then segs.tail else segs

/-- Models `URI.joinPaths(a, b)` followed by the `normalizePath` it performs:
the non-empty segments of both paths joined by single slashes, with a
leading slash exactly when the first argument's path is empty or absolute.
(Trailing slashes, `.` and `..` segments never occur in this client and are
not modelled.) -/
def joinPaths (a b : Uri) : Uri :=
  let segs := (a.segments ++ b.segments).filter (· ≠ [])
  if segs = [] then ⟨[], [], []⟩
  else
    let lead := a.path = [] ∨ a.path.head? = some '/'
    ⟨[], [], (if lead then ['/'] else []) ++ List.intercalate ['/'] segs⟩

/-- Translation of the client's `parseUrl(uri, path)` method: parse `uri`,
join its path with `path`, and return `uri` with the joined path installed
(`u.path(pathJoined)` in the source). -/
def parseUrl (uri : Chars) (path_ : Uri) : Uri :=
  let u := parseURIc uri
  let pathJoined := joinPaths u path_
  { u with path := pathJoined.path }

/-- Translation of the URL-resolution part of the client's `request(config)`
method: a URL with a non-empty hostname is passed through unchanged
(re-serialized); a relative URL is joined to the configured server, with the
API prefix prepended unless the URL already starts with it (with or without
a leading slash). -/
def resolveUrlCore (server apiPrefix url : Chars) : Chars :=
  let uri := parseURIc url
  if uri.hostname = [] then
    let prefixPart := if jsStartsWith url apiPrefix || jsStartsWith url ('/' :: apiPrefix) then [] else apiPrefix
    let path := joinPaths (parseURIc prefixPart) (parseURIc url)
    (parseUrl server path).toChars
  else
    uri.toChars

/-- String-level wrapper of `resolveUrlCore`. -/
def resolveUrl (server apiPrefix url : String) : String :=
  ⟨resolveUrlCore server.data apiPrefix.data url.data⟩

/-- The fixed legacy hostnames (`LEGACY_SERVERS` in the source). -/
def LEGACY_SERVERS : List String :=
  ["https://portal.vacd.biz", "https://portal.virtualacd.biz"]

/-- Translation of `isLegacyServer(server)`. -/
def isLegacyServer (server : String) : Bool :=
  LEGACY_SERVERS.contains server

/-- A credential bundle: a JavaScript object whose fields the client reads.
Every field may be absent (`none` models a missing field / `undefined`).
Fields the client never reads are not modelled. -/
structure Bundle where
  authToken : Option String
  apiToken : Option String
  accessToken : Option String
  refreshToken : Option String
deriving DecidableEq, Repr

/-- The session data object of the RingCentral identity SDK collaborator
(`this.rc.platform().auth().data()`), reduced to the only field the client
reads. -/
structure RcAuth where
  access_token : Option String
deriving DecidableEq, Repr

/-- Models `(await this.rc.platform().auth().data() || {}).access_token || ''`:
the collaborator's current session access token, or the empty string when
the session holds none. -/
def rcAccessTokenOf : Option RcAuth → String
  | none => ""
  | some a => a.access_token.getD ""

/-- A JavaScript object of string keys and string-or-`undefined` values,
as used for HTTP headers: key order and key presence matter. -/
abbrev HeaderObj := List (String × Option String)

/-- Sets one key of a JavaScript object: overrides in place when the key is
present, appends otherwise. -/
def objSet (o : HeaderObj) (k : String) (v : Option String) : HeaderObj :=
  if o.any (fun p => p.1 == k) then o.map (fun p => if p.1 == k then (k, v) else p)
  else o ++ [(k, v)]

/-- Models the JavaScript object spread `\x7b...base, ...extra\x7d`. -/
def objSpread (base extra : HeaderObj) : HeaderObj :=
  extra.foldl (fun acc p => objSet acc p.1 p.2) base

/-- JavaScript property read: `some v` when the key is present with value
`v` (itself possibly `undefined`), `none` when the key is absent. -/
def jsGet (o : HeaderObj) (k : String) : Option (Option String) :=
  (o.find? (fun p => p.1 == k)).map (fun p => p.2)

/-- Translation of `_legacyHeader()`: `accessToken` starts as `''` and is
replaced by the stored bundle's raw `apiToken` field when a bundle is
stored (so it is `undefined` when the bundle lacks the field). -/
def _legacyHeader (tok : Option Bundle) : HeaderObj :=
  let accessToken : Option String :=
    match tok with
    | none => some ""
    | some b => b.apiToken
  [("X-Auth-Token", accessToken)]

/-- Translation of `_bearerAuthorizationHeader()`: `accessToken` starts as
`''` and is replaced by the stored bundle's raw `accessToken` field when a
bundle is stored; the template literal stringifies a missing field as
`"undefined"`. -/
def _bearerAuthorizationHeader (tok : Option Bundle) : HeaderObj :=
  let accessToken : Option String :=
    match tok with
    | none => some ""
    | some b => b.accessToken
  [("Authorization", some ("Bearer " ++ jsTemplateStr accessToken))]

/-- Translation of `_patchHeaders(headers)`: the auth headers for the
client's server mode, then the two user-agent headers, then the caller's
headers, merged by object spread (caller overrides win).  `version` is
`process.env.version`, possibly absent. -/
def _patchHeaders (isLegacy : Bool) (version : Option String) (tok : Option Bundle)
    (headers : HeaderObj) : HeaderObj :=
  let userAgentHeader := "ringcentral-engage-voice-js/v" ++ jsTemplateStr version
  let authHeaders := if isLegacy then _legacyHeader tok else _bearerAuthorizationHeader tok
  objSpread (objSpread authHeaders
    [("X-User-Agent", some userAgentHeader), ("RC-User-Agent", some userAgentHeader)]) headers

/-- The legacy header the specification's words prescribe:
`X-Auth-Token: bundle?.apiToken ?? ''` (refinement comparison only; the
source definition is `_legacyHeader`). -/
def specLegacyHeader (tok : Option Bundle) : HeaderObj :=
  [("X-Auth-Token", some ((tok.bind (fun b => b.apiToken)).getD ""))]

/-- The modern header the specification's words prescribe:
`Authorization: Bearer + (bundle?.accessToken ?? '')` (refinement comparison
only; the source definition is `_bearerAuthorizationHeader`). -/
def specBearerHeader (tok : Option Bundle) : HeaderObj :=
  [("Authorization", some ("Bearer " ++ (tok.bind (fun b => b.accessToken)).getD ""))]

/-- The response carried by a transport failure (`e.response` of an axios
rejection).  Its `data` and `config` are JavaScript objects, modelled as
string-keyed objects with string values. -/
structure AxiosResponse where
  status : Int
  statusText : String
  data : List (String × String)
  config : List (String × String)
deriving DecidableEq, Repr

/-- A failure thrown by the axios transport collaborator: it may carry a
response; `tag` stands for everything else in the error value, so that
rethrowing "the very same error value" is observable in the model. -/
structure AxiosFailure where
  response : Option AxiosResponse
  tag : String
deriving DecidableEq, Repr

/-- Models `JSON.stringify(o, null, 2)` for a flat object of string fields
(the only shape appearing in this development). -/
def jsonStringify (o : List (String × String)) : String :=
  match o with
  | [] => "\x7b\x7d"
  | _ =>
    "\x7b\n" ++
      String.intercalate ",\n" (o.map (fun p => "  \"" ++ p.1 ++ "\": \"" ++ p.2 ++ "\"")) ++
      "\n\x7d"

/-- The message built by the `HTTPError` constructor's template literal. -/
def httpErrorMessage (status : Int) (statusText : String)
    (data : List (String × String)) (config : List (String × String)) : String :=
  "status: " ++ toString status ++
  "\nstatusText: " ++ statusText ++
  "\ndata: " ++ jsonStringify data ++
  "\nconfig: " ++ jsonStringify config

/-- Translation of the `HTTPError` class: the formatted message plus the
four structured fields stored on the error. -/
structure HTTPError where
  message : String
  status : Int
  statusText : String
  data : List (String × String)
  config : List (String × String)
deriving DecidableEq, Repr

/-- An error escaping the client: a classified `HTTPError`, a transport
failure rethrown unmodified, or a JavaScript `TypeError` (property access on
`undefined`). -/
inductive JsError where
  | http (e : HTTPError)
  | transportRaw (e : AxiosFailure)
  | typeError (msg : String)
deriving DecidableEq, Repr

/-- Translation of the wrapper installed around `this._axios.request`: a
failure that carries a response is wrapped into an `HTTPError` from the
response's four fields; any other failure is rethrown as the very same
value. -/
def classifyFailure (e : AxiosFailure) : JsError :=
  match e.response with
  | some r =>
    JsError.http ⟨httpErrorMessage r.status r.statusText r.data r.config,
      r.status, r.statusText, r.data, r.config⟩
  | none => JsError.transportRaw e

/-- Translation of the setter arm of `token(_token)`: the store always takes
the new bundle, and a `tokenChanged` event carrying it is emitted exactly
when the new bundle differs from the stored one (JavaScript `!==`, modelled
as value inequality).  Returns the new store and the emitted events. -/
def tokenSet (old : Option Bundle) (tok : Bundle) : Option Bundle × List Bundle :=
  let tokenChanged := old ≠ some tok
  (some tok, if tokenChanged then [tok] else [])

/-- Runs a sequence of calls to the token setter, accumulating the emitted
`tokenChanged` events. -/
def runTokenSets (init : Option Bundle) (sets : List Bundle) : Option Bundle × List Bundle :=
  sets.foldl (fun acc b =>
    let r := tokenSet acc.1 b
    (r.1, acc.2 ++ r.2)) (init, [])

/-- One HTTP request handed to the transport collaborator. -/
structure Request where
  method : String
  url : String
  data : Option String
  headers : HeaderObj
deriving DecidableEq, Repr

/-- The observable outcome of running one client operation: the transport
requests issued in order, the token store afterwards, the `tokenChanged`
events emitted, and the returned value or escaped error. -/
structure FlowResult where
  requests : List Request
  store : Option Bundle
  events : List Bundle
  outcome : Except JsError Unit
deriving Repr

/-- Translation of `getToken(refreshToken)`: builds the token-exchange POST
(body `refreshToken=...` when a truthy refresh token was supplied, else
`rcAccessToken=...` from the identity collaborator's session), and stores
the response bundle on success.  `resp` is the transport's outcome for the
one request issued. -/
def getToken (server : String) (rcSession : Option RcAuth) (tok : Option Bundle)
    (refreshToken : Option String) (resp : Except AxiosFailure Bundle) : FlowResult :=
  let url := server ++ "/api/auth/login/rc/accesstoken?includeRefresh=true"
  let token : String :=
    if jsTruthy refreshToken then refreshToken.getD "" else rcAccessTokenOf rcSession
  let body :=
    if jsTruthy refreshToken then "refreshToken=" ++ token ++ "&rcTokenType=Bearer"
    else "rcAccessToken=" ++ token ++ "&rcTokenType=Bearer"
  let req : Request :=
    ⟨"post", url, some body, [("Content-Type", some "application/x-www-form-urlencoded")]⟩
  match resp with
  | .error e => ⟨[req], tok, [], .error (classifyFailure e)⟩
  | .ok r =>
    let st := tokenSet tok r
    ⟨[req], st.1, st.2, .ok ()⟩

/-- Translation of `refresh()`: `this.getToken(this._token.refreshToken)`.
The source reads `refreshToken` off the stored bundle with no guard; with an
empty store that property access throws a `TypeError` before any request is
built, which the `none` branch models. -/
def refresh (server : String) (rcSession : Option RcAuth) (tok : Option Bundle)
    (resp : Except AxiosFailure Bundle) : FlowResult :=
  match tok with
  | none =>
    ⟨[], none, [], .error (JsError.typeError
      "Cannot read properties of undefined (reading refreshToken)")⟩
  | some b => getToken server rcSession tok b.refreshToken resp

/-- Translation of `getLegacyToken({username, password})`: POST the form
credentials to the login endpoint, then POST to the token-exchange endpoint
with the first response's `authToken` (or `''`) as `X-Auth-Token`, and store
the first response merged with the second response under key `apiToken`.
`resp1`/`resp2` are the transport's outcomes for the two requests; a failed
await aborts the flow and the later request is never issued. -/
def getLegacyToken (server : String) (tok : Option Bundle) (username password : String)
    (resp1 : Except AxiosFailure Bundle) (resp2 : Except AxiosFailure String) : FlowResult :=
  let url := server ++ "/api/v1/auth/login"
  let body := "username=" ++ username ++ "&password=" ++ password
  let req1 : Request :=
    ⟨"post", url, some body, [("Content-Type", some "application/x-www-form-urlencoded")]⟩
  match resp1 with
  | .error e => ⟨[req1], tok, [], .error (classifyFailure e)⟩
  | .ok r =>
    let url1 := server ++ "/api/v1/admin/token"
    let req2 : Request :=
      ⟨"post", url1, none, [("X-Auth-Token", some (r.authToken.getD ""))]⟩
    match resp2 with
    | .error e => ⟨[req1, req2], tok, [], .error (classifyFailure e)⟩
    | .ok r1 =>
      let merged := { r with apiToken := some r1 }
      let st := tokenSet tok merged
      ⟨[req1, req2], st.1, st.2, .ok ()⟩

/-- Translation of `authorize(...args)`: the legacy path runs
`legacyAuthorize` (which only forwards to `getLegacyToken`); the modern path
runs the identity collaborator's `login` (whose outcome is `rcLoginOutcome`;
its own traffic goes to the identity platform, not through this client's
transport) and then `getToken()` with no argument. -/
def authorize (server : String) (rcSession : Option RcAuth) (tok : Option Bundle)
    (username password : String)
    (resp1 : Except AxiosFailure Bundle) (resp2 : Except AxiosFailure String)
    (rcLoginOutcome : Except JsError Unit) (modernResp : Except AxiosFailure Bundle) :
    FlowResult :=
  if isLegacyServer server then
    getLegacyToken server tok username password resp1 resp2
  else
    match rcLoginOutcome with
    | .error e => ⟨[], tok, [], .error e⟩
    | .ok _ => getToken server rcSession tok none modernResp

/-- Translation of the request-building part of `request(config)`: the URL
is resolved against the configured server and API prefix, and the headers
are patched. -/
def requestBuild (server apiPrefixArg : String) (isLegacy : Bool) (version : Option String)
    (tok : Option Bundle) (method url : String) (data : Option String)
    (headers : HeaderObj) : Request :=
  ⟨method, resolveUrl server apiPrefixArg url, data,
    _patchHeaders isLegacy version tok headers⟩

/-- Translation of `revokeLegacyToken()`: with a stored bundle it calls
`this.delete` on the template literal
`` /api/v1/admin/token/$\x7bthis._token.apiToken\x7d ``
followed by a line break, four spaces and `X` (the literal spans two source
lines); with an empty store it does nothing.  Returns the requests issued. -/
def revokeLegacyToken (server apiPrefixArg : String) (isLegacy : Bool)
    (version : Option String) (tok : Option Bundle) : List Request :=
  match tok with
  | none => []
  | some b =>
    [requestBuild server apiPrefixArg isLegacy version tok "delete"
      ("/api/v1/admin/token/" ++ jsTemplateStr b.apiToken ++ "\n    X") none []]

/-- Structured access to the `status` field of a classified error. -/
def JsError.statusOf : JsError → Option Int
  | .http h => some h.status
  | _ => none

/-- Structured access to one field of the `data` object of a classified
error. -/
def JsError.dataField (k : String) : JsError → Option String
  | .http h => List.lookup k h.data
  | _ => none

/-- Recomposition of `splitScheme`: a successful split recovers the input
around the `"://"` separator. -/
theorem splitScheme_eq (l : Chars) (p : Chars × Chars) (h : splitScheme l = some p) :
    l = p.1 ++ ':' :: '/' :: '/' :: p.2 := by
  induction l generalizing p with
  | nil => simp [splitScheme] at h
  | cons c rest ih =>
    by_cases h1 : c = ':' ∧ rest.take 2 = ['/', '/']
    · rw [splitScheme, if_pos h1] at h
      obtain ⟨hc, ht⟩ := h1
      cases h
      simp only [List.nil_append]
      rw [hc, ← List.take_append_drop 2 rest, ht]
      simp
    · rw [splitScheme, if_neg h1] at h
      by_cases h2 : c = '/'
      · simp [h2] at h
      · rw [if_neg h2] at h
        cases e : splitScheme rest with
        | none => rw [e] at h; cases h
        | some q =>
          rw [e] at h
          cases h
          simpa using ih q e

/-- Recomposition of `splitHost`: hostname and path concatenate back to the
input. -/
theorem splitHost_append (l : Chars) : (splitHost l).1 ++ (splitHost l).2 = l := by
  induction l with
  | nil => rfl
  | cons c rest ih =>
    by_cases h : c = '/'
    · simp [splitHost, h]
    · simp [splitHost, h, ih]

/-- Serialization inverts parsing for every URL whose parse has a non-empty
hostname. -/
theorem parseURIc_toChars (l : Chars) (h : (parseURIc l).hostname ≠ []) :
    (parseURIc l).toChars = l := by
  cases e : splitScheme l with
  | none =>
    simp [parseURIc, e, Uri.toChars]
  | some p =>
    have hl := splitScheme_eq l p e
    rw [parseURIc, e] at h ⊢
    simp only at h
    rw [Uri.toChars]
    rw [if_neg (by simp [h])]
    simp only
    rw [splitHost_append, ← hl]

/-- C5: for a relative request URL that already starts with the API prefix,
with or without a leading slash, the resolved URL is the configured server
joined directly with that path — the prefix is not prepended again; with
prefix `voice`, both `voice/calls` and `/voice/calls` resolve to
`server/voice/calls`, not `server/voice/voice/calls`. -/
theorem resolve_no_double_apiPrefix :
    (∀ server apiPrefixArg url : String,
      (parseURIc url.data).hostname = [] →
      (jsStartsWith url.data apiPrefixArg.data ||
        jsStartsWith url.data ('/' :: apiPrefixArg.data)) = true →
      resolveUrl server apiPrefixArg url =
        ⟨(parseUrl server.data (joinPaths (parseURIc []) (parseURIc url.data))).toChars⟩) ∧
    resolveUrl "https://engage.ringcentral.com" "voice" "voice/calls" =
      "https://engage.ringcentral.com/voice/calls" ∧
    resolveUrl "https://engage.ringcentral.com" "voice" "/voice/calls" =
      "https://engage.ringcentral.com/voice/calls" := by
  refine ⟨?_, by decide, by decide⟩
  intro server apiPrefixArg url h1 h2
  simp only [resolveUrl, resolveUrlCore, h1, h2, if_true, if_pos]

/-- C5 witness: the general part of `resolve_no_double_apiPrefix`
instantiated at the server `https://engage.ringcentral.com`, prefix `voice`
and path `voice/x`. -/
theorem resolve_no_double_apiPrefix_witness :
    resolveUrl "https://engage.ringcentral.com" "voice" "voice/x" =
      ⟨(parseUrl "https://engage.ringcentral.com".data
        (joinPaths (parseURIc []) (parseURIc "voice/x".data))).toChars⟩ :=
  resolve_no_double_apiPrefix.1 "https://engage.ringcentral.com" "voice" "voice/x"
    (by decide) (by decide)

/-- C9: the dispatcher detects an already-prefixed path by a raw string
prefix test on the whole path, not by path segments: any relative path whose
first segment merely begins with the prefix (such as `voicemail/box` with
prefix `voice`) is joined to the server without the prefix being added. -/
theorem resolve_raw_string_prefix_test :
    (∀ server apiPrefixArg url : String,
      (parseURIc url.data).hostname = [] →
      jsStartsWith url.data apiPrefixArg.data = true →
      resolveUrl server apiPrefixArg url =
        ⟨(parseUrl server.data (joinPaths (parseURIc []) (parseURIc url.data))).toChars⟩) ∧
    resolveUrl "https://engage.ringcentral.com" "voice" "voicemail/box" =
      "https://engage.ringcentral.com/voicemail/box" := by
  refine ⟨?_, by decide⟩
  intro server apiPrefixArg url h1 h2
  simp only [resolveUrl, resolveUrlCore, h1, h2, Bool.true_or, if_true, if_pos]

/-- C9 witness: the general part of `resolve_raw_string_prefix_test`
instantiated at prefix `voice` and path `voicemail/box`. -/
theorem resolve_raw_string_prefix_test_witness :
    resolveUrl "https://engage.ringcentral.com" "voice" "voicemail/box" =
      ⟨(parseUrl "https://engage.ringcentral.com".data
        (joinPaths (parseURIc []) (parseURIc "voicemail/box".data))).toChars⟩ :=
  resolve_raw_string_prefix_test.1 "https://engage.ringcentral.com" "voice" "voicemail/box"
    (by decide) (by decide)

/-- C6: a request URL with a non-empty hostname is returned unchanged by URL
resolution, bypassing the configured server and API prefix; consequently
resolution is idempotent on every input whose resolution is an absolute
URL. -/
theorem resolve_absolute_unchanged_idempotent :
    (∀ server apiPrefixArg u : String,
      (parseURIc u.data).hostname ≠ [] →
      resolveUrl server apiPrefixArg u = u) ∧
    (∀ server apiPrefixArg u : String,
      (parseURIc (resolveUrl server apiPrefixArg u).data).hostname ≠ [] →
      resolveUrl server apiPrefixArg (resolveUrl server apiPrefixArg u) =
        resolveUrl server apiPrefixArg u) := by
  have main : ∀ server apiPrefixArg u : String,
      (parseURIc u.data).hostname ≠ [] → resolveUrl server apiPrefixArg u = u := by
    intro server apiPrefixArg u h
    show (⟨resolveUrlCore server.data apiPrefixArg.data u.data⟩ : String) = u
    have hc : resolveUrlCore server.data apiPrefixArg.data u.data = u.data := by
      simp only [resolveUrlCore, if_neg h]
      exact parseURIc_toChars u.data h
    rw [hc]
  exact ⟨main, fun server apiPrefixArg u h => main server apiPrefixArg _ h⟩

/-- C6 witness: `resolve_absolute_unchanged_idempotent` instantiated at the
absolute URL `https://example.com/a`. -/
theorem resolve_absolute_unchanged_idempotent_witness :
    resolveUrl "https://engage.ringcentral.com" "voice" "https://example.com/a" =
      "https://example.com/a" ∧
    resolveUrl "https://engage.ringcentral.com" "voice"
        (resolveUrl "https://engage.ringcentral.com" "voice" "https://example.com/a") =
      resolveUrl "https://engage.ringcentral.com" "voice" "https://example.com/a" :=
  ⟨resolve_absolute_unchanged_idempotent.1 "https://engage.ringcentral.com" "voice"
      "https://example.com/a" (by decide),
   resolve_absolute_unchanged_idempotent.2 "https://engage.ringcentral.com" "voice"
      "https://example.com/a" (by decide)⟩

/-- C2: a set whose argument equals the stored bundle emits no
`tokenChanged` event, a set whose argument differs emits exactly one event
carrying the new bundle, and setting the same bundle value twice from an
empty store emits exactly one event (on the first transition). -/
theorem tokenSetter_change_detection :
    (∀ (old : Option Bundle) (b : Bundle),
      (old = some b → (tokenSet old b).2 = []) ∧
      (old ≠ some b → (tokenSet old b).2 = [b])) ∧
    (∀ b : Bundle, (runTokenSets none [b, b]).2 = [b]) := by
  constructor
  · intro old b
    constructor
    · intro h
      simp [tokenSet, h]
    · intro h
      simp [tokenSet, h]
  · intro b
    simp [runTokenSets, tokenSet]

/-- C2 witness: `tokenSetter_change_detection` at a concrete bundle: a no-op
set emits nothing, and setting the same bundle twice from empty emits
exactly one event. -/
theorem tokenSetter_change_detection_witness :
    (tokenSet (some ⟨some "a", none, none, none⟩) ⟨some "a", none, none, none⟩).2 = [] ∧
    (runTokenSets none [⟨some "a", none, none, none⟩, ⟨some "a", none, none, none⟩]).2 =
      [⟨some "a", none, none, none⟩] :=
  ⟨(tokenSetter_change_detection.1 (some ⟨some "a", none, none, none⟩)
      ⟨some "a", none, none, none⟩).1 rfl,
   tokenSetter_change_detection.2 ⟨some "a", none, none, none⟩⟩

/-- C3 counterexample: at the stored bundle with `authToken = "x"` and no
`apiToken`/`accessToken` field, the legacy injected header value is
`undefined` and the modern one is `Bearer undefined`, not the `''` and
`Bearer ` that the claim's formulas `bundle?.apiToken ?? ''` and
`Bearer + (bundle?.accessToken ?? '')` give. -/
theorem header_formula_counterexample :
    _legacyHeader (some ⟨some "x", none, none, none⟩) ≠
      specLegacyHeader (some ⟨some "x", none, none, none⟩) ∧
    _bearerAuthorizationHeader (some ⟨some "x", none, none, none⟩) ≠
      specBearerHeader (some ⟨some "x", none, none, none⟩) ∧
    _legacyHeader (some ⟨some "x", none, none, none⟩) = [("X-Auth-Token", none)] ∧
    _bearerAuthorizationHeader (some ⟨some "x", none, none, none⟩) =
      [("Authorization", some "Bearer undefined")] := by
  decide

/-- C3 (amended): injected auth headers are a pure function of server mode
and the stored bundle; the claim's formulas hold whenever the bundle is
absent or carries the respective field (a bundle lacking the field yields
the raw `undefined` value instead of `''`), and exactly one auth scheme is
injected — a legacy client's patched headers never contain `Authorization`
and a modern client's never contain `X-Auth-Token`. -/
theorem header_injection_amended :
    (∀ (b : Bundle) (s : String), b.apiToken = some s →
      _legacyHeader (some b) = [("X-Auth-Token", some s)]) ∧
    _legacyHeader none = [("X-Auth-Token", some "")] ∧
    (∀ (b : Bundle) (s : String), b.accessToken = some s →
      _bearerAuthorizationHeader (some b) = [("Authorization", some ("Bearer " ++ s))]) ∧
    _bearerAuthorizationHeader none = [("Authorization", some "Bearer ")] ∧
    (∀ (version : Option String) (tok : Option Bundle),
      jsGet (_patchHeaders true version tok []) "Authorization" = none ∧
      (jsGet (_patchHeaders true version tok []) "X-Auth-Token").isSome = true ∧
      jsGet (_patchHeaders false version tok []) "X-Auth-Token" = none ∧
      (jsGet (_patchHeaders false version tok []) "Authorization").isSome = true) := by
  refine ⟨?_, rfl, ?_, rfl, ?_⟩
  · intro b s h
    simp [_legacyHeader, h]
  · intro b s h
    simp [_bearerAuthorizationHeader, h, jsTemplateStr]
  · intro version tok
    cases tok <;>
      simp [_patchHeaders, _legacyHeader, _bearerAuthorizationHeader, objSpread, objSet, jsGet]

/-- C3 witness: `header_injection_amended` at concrete bundles carrying the
respective fields, and the exactly-one-scheme part at an empty store. -/
theorem header_injection_amended_witness :
    _legacyHeader (some ⟨none, some "abc", none, none⟩) = [("X-Auth-Token", some "abc")] ∧
    _bearerAuthorizationHeader (some ⟨none, none, some "xyz", none⟩) =
      [("Authorization", some "Bearer xyz")] ∧
    jsGet (_patchHeaders true none none []) "Authorization" = none :=
  ⟨header_injection_amended.1 ⟨none, some "abc", none, none⟩ "abc" rfl,
   header_injection_amended.2.2.1 ⟨none, none, some "xyz", none⟩ "xyz" rfl,
   (header_injection_amended.2.2.2.2 none none).1⟩

/-- C4: a transport failure carrying a response is classified into an
`HTTPError` preserving `status`, `statusText`, `data` and `config` verbatim
with structured access to each (the concrete `401` rejection yields
`status = 401` and `data.msg = "x"`); a failure with no response is rethrown
as the very same value. -/
theorem transport_error_classification :
    (∀ (e : AxiosFailure) (r : AxiosResponse), e.response = some r →
      classifyFailure e =
        JsError.http ⟨httpErrorMessage r.status r.statusText r.data r.config,
          r.status, r.statusText, r.data, r.config⟩) ∧
    (∀ e : AxiosFailure, e.response = none → classifyFailure e = JsError.transportRaw e) ∧
    JsError.statusOf
      (classifyFailure ⟨some ⟨401, "Unauthorized", [("msg", "x")], []⟩, "boom"⟩) = some 401 ∧
    JsError.dataField "msg"
      (classifyFailure ⟨some ⟨401, "Unauthorized", [("msg", "x")], []⟩, "boom"⟩) = some "x" := by
  refine ⟨?_, ?_, by decide, by decide⟩
  · intro e r h
    cases e
    cases h
    rfl
  · intro e h
    cases e
    cases h
    rfl

/-- C4 witness: `transport_error_classification` at a concrete
response-bearing failure and a concrete response-less failure. -/
theorem transport_error_classification_witness :
    classifyFailure ⟨some ⟨500, "ISE", [], []⟩, "t"⟩ =
      JsError.http ⟨httpErrorMessage 500 "ISE" [] [], 500, "ISE", [], []⟩ ∧
    classifyFailure ⟨none, "conn-reset"⟩ = JsError.transportRaw ⟨none, "conn-reset"⟩ :=
  ⟨transport_error_classification.1 ⟨some ⟨500, "ISE", [], []⟩, "t"⟩ ⟨500, "ISE", [], []⟩ rfl,
   transport_error_classification.2.1 ⟨none, "conn-reset"⟩ rfl⟩

/-- C1: with a legacy-set server, `authorize` issues exactly two POSTs in
sequence — the form-encoded login, then the token exchange carrying the
first response's `authToken` as `X-Auth-Token` — and stores the first
response merged with the second response under key `apiToken`, so the stored
bundle carries both `authToken` and `apiToken`; if either POST fails the
classified error propagates and the token store is left unchanged. -/
theorem legacy_authorize_two_step
    (server : String) (rcSession : Option RcAuth) (tok : Option Bundle)
    (username password a : String) (r : Bundle) (r1 : String)
    (rcL : Except JsError Unit) (mR : Except AxiosFailure Bundle) (e : AxiosFailure)
    (hleg : isLegacyServer server = true) :
    (r.authToken = some a →
      authorize server rcSession tok username password (.ok r) (.ok r1) rcL mR =
        ⟨[⟨"post", server ++ "/api/v1/auth/login",
            some ("username=" ++ username ++ "&password=" ++ password),
            [("Content-Type", some "application/x-www-form-urlencoded")]⟩,
          ⟨"post", server ++ "/api/v1/admin/token", none,
            [("X-Auth-Token", some a)]⟩],
          some { r with apiToken := some r1 },
          (tokenSet tok { r with apiToken := some r1 }).2, .ok ()⟩ ∧
      ({ r with apiToken := some r1 }).authToken = some a ∧
      ({ r with apiToken := some r1 }).apiToken = some r1) ∧
    (authorize server rcSession tok username password (.error e) (.ok r1) rcL mR =
      ⟨[⟨"post", server ++ "/api/v1/auth/login",
          some ("username=" ++ username ++ "&password=" ++ password),
          [("Content-Type", some "application/x-www-form-urlencoded")]⟩],
        tok, [], .error (classifyFailure e)⟩) ∧
    (authorize server rcSession tok username password (.ok r) (.error e) rcL mR =
      ⟨[⟨"post", server ++ "/api/v1/auth/login",
          some ("username=" ++ username ++ "&password=" ++ password),
          [("Content-Type", some "application/x-www-form-urlencoded")]⟩,
        ⟨"post", server ++ "/api/v1/admin/token", none,
          [("X-Auth-Token", some (r.authToken.getD ""))]⟩],
        tok, [], .error (classifyFailure e)⟩) := by
  refine ⟨?_, ?_, ?_⟩
  · intro hA
    refine ⟨?_, by simp [hA], rfl⟩
    simp [authorize, hleg, getLegacyToken, hA, tokenSet]
  · simp [authorize, hleg, getLegacyToken]
  · simp [authorize, hleg, getLegacyToken]

/-- C1 witness: `legacy_authorize_two_step` at the legacy server
`https://portal.vacd.biz`, credentials `u`/`p`, a login response carrying
`authToken = "AT"` and a token-exchange response `"API"`. -/
theorem legacy_authorize_two_step_witness :
    authorize "https://portal.vacd.biz" none none "u" "p"
        (.ok ⟨some "AT", none, none, none⟩) (.ok "API") (.ok ())
        (.error ⟨none, "unused"⟩) =
      ⟨[⟨"post", "https://portal.vacd.biz/api/v1/auth/login",
          some "username=u&password=p",
          [("Content-Type", some "application/x-www-form-urlencoded")]⟩,
        ⟨"post", "https://portal.vacd.biz/api/v1/admin/token", none,
          [("X-Auth-Token", some "AT")]⟩],
        some ⟨some "AT", some "API", none, none⟩,
        [⟨some "AT", some "API", none, none⟩], .ok ()⟩ :=
  ((legacy_authorize_two_step "https://portal.vacd.biz" none none "u" "p" "AT"
      ⟨some "AT", none, none, none⟩ "API" (.ok ()) (.error ⟨none, "unused"⟩)
      ⟨none, "unused2"⟩ rfl).1 rfl).1

/-- C7: for a stored bundle carrying a (truthy) refresh token, `refresh`
issues exactly one POST to the `includeRefresh=true` access-token endpoint
with form body `refreshToken=<stored>&rcTokenType=Bearer`; a token exchange
invoked with no explicit refresh token posts
`rcAccessToken=<t>&rcTokenType=Bearer` where `<t>` is the identity
collaborator's current session access token, or `''` when the session holds
none. -/
theorem refresh_exchange_bodies :
    (∀ (server : String) (rcSession : Option RcAuth) (b : Bundle) (rt : String)
        (resp : Except AxiosFailure Bundle),
      b.refreshToken = some rt → rt ≠ "" →
      (refresh server rcSession (some b) resp).requests =
        [⟨"post", server ++ "/api/auth/login/rc/accesstoken?includeRefresh=true",
          some ("refreshToken=" ++ rt ++ "&rcTokenType=Bearer"),
          [("Content-Type", some "application/x-www-form-urlencoded")]⟩]) ∧
    (∀ (server : String) (au : RcAuth) (t : String) (tok : Option Bundle)
        (resp : Except AxiosFailure Bundle),
      au.access_token = some t →
      (getToken server (some au) tok none resp).requests =
        [⟨"post", server ++ "/api/auth/login/rc/accesstoken?includeRefresh=true",
          some ("rcAccessToken=" ++ t ++ "&rcTokenType=Bearer"),
          [("Content-Type", some "application/x-www-form-urlencoded")]⟩]) ∧
    (∀ (server : String) (tok : Option Bundle) (resp : Except AxiosFailure Bundle),
      (getToken server none tok none resp).requests =
        [⟨"post", server ++ "/api/auth/login/rc/accesstoken?includeRefresh=true",
          some "rcAccessToken=&rcTokenType=Bearer",
          [("Content-Type", some "application/x-www-form-urlencoded")]⟩]) := by
  refine ⟨?_, ?_, ?_⟩
  · intro server rcSession b rt resp hb hrt
    cases resp <;> simp [refresh, getToken, hb, jsTruthy, hrt]
  · intro server au t tok resp ha
    cases resp <;> simp [getToken, jsTruthy, rcAccessTokenOf, ha]
  · intro server tok resp
    cases resp <;> simp [getToken, jsTruthy, rcAccessTokenOf]

/-- C7 witness: `refresh_exchange_bodies` at a stored refresh token `RT`, a
session access token `ACC`, and an empty session. -/
theorem refresh_exchange_bodies_witness :
    (refresh "https://engage.ringcentral.com" none
        (some ⟨none, none, none, some "RT"⟩) (.error ⟨none, "down"⟩)).requests =
      [⟨"post", "https://engage.ringcentral.com/api/auth/login/rc/accesstoken?includeRefresh=true",
        some "refreshToken=RT&rcTokenType=Bearer",
        [("Content-Type", some "application/x-www-form-urlencoded")]⟩] ∧
    (getToken "https://engage.ringcentral.com" (some ⟨some "ACC"⟩) none none
        (.error ⟨none, "down"⟩)).requests =
      [⟨"post", "https://engage.ringcentral.com/api/auth/login/rc/accesstoken?includeRefresh=true",
        some "rcAccessToken=ACC&rcTokenType=Bearer",
        [("Content-Type", some "application/x-www-form-urlencoded")]⟩] ∧
    (getToken "https://engage.ringcentral.com" none none none
        (.error ⟨none, "down"⟩)).requests =
      [⟨"post", "https://engage.ringcentral.com/api/auth/login/rc/accesstoken?includeRefresh=true",
        some "rcAccessToken=&rcTokenType=Bearer",
        [("Content-Type", some "application/x-www-form-urlencoded")]⟩] :=
  ⟨refresh_exchange_bodies.1 "https://engage.ringcentral.com" none
      ⟨none, none, none, some "RT"⟩ "RT" (.error ⟨none, "down"⟩) rfl (by decide),
   refresh_exchange_bodies.2.1 "https://engage.ringcentral.com" ⟨some "ACC"⟩ "ACC" none
      (.error ⟨none, "down"⟩) rfl,
   refresh_exchange_bodies.2.2 "https://engage.ringcentral.com" none (.error ⟨none, "down"⟩)⟩

/-- C8 (code bug): with a stored bundle the code does issue exactly one
DELETE and none when the store is empty, but the URL it requests is not
`server/api/v1/admin/token/<apiToken>`: the path template embeds a stray
line break, four spaces and a literal `X`, and — since the path does not
start with the API prefix — the resolver additionally prepends `voice`. -/
theorem revoke_legacy_token_url :
    (revokeLegacyToken "https://portal.vacd.biz" "voice" true none
        (some ⟨none, some "abc", none, none⟩)).map (fun q => (q.method, q.url)) =
      [("delete", "https://portal.vacd.biz/voice/api/v1/admin/token/abc\n    X")] ∧
    (revokeLegacyToken "https://portal.vacd.biz" "voice" true none
        (some ⟨none, some "abc", none, none⟩)).map (fun q => q.url) ≠
      ["https://portal.vacd.biz/api/v1/admin/token/abc"] ∧
    revokeLegacyToken "https://portal.vacd.biz" "voice" true none none = [] := by
  decide

/-- C10: `refresh` called while the token store is empty fails immediately
with a `TypeError` from reading `refreshToken` off the absent bundle: no
request is issued and the store stays empty. -/
theorem refresh_empty_store_type_error :
    ∀ (server : String) (rcSession : Option RcAuth) (resp : Except AxiosFailure Bundle),
      refresh server rcSession none resp =
        ⟨[], none, [], .error (JsError.typeError
          "Cannot read properties of undefined (reading refreshToken)")⟩ :=
  fun _ _ _ => rfl

end EngageVoice
